import Mathlib

/-!
Verification of the rt-static ticket storage and retrieval engine.

The definitions below are a shallow embedding of the Go sources:
  - data/data.go        (offset index, GetTicket, GetAttachment)
  - web/web.go          (searchHandler query handling and pagination)
  - the index builder   (readTickets, writeIndexJSON)
JSON documents parsed by encoding/json into interface{} values are
modelled by the Json inductive; Go maps are modelled as association
lists with last-write-wins assignment; Go runtime panics are modelled
as explicit error constructors.
-/

namespace RTStatic

/-- A JSON value as produced by the Go encoding/json Unmarshal into an
interface value: null, booleans, numbers, strings, arrays and objects.
Numbers are modelled as integers; no claim below depends on float
behaviour.  Objects are field lists that stand for the decoded Go map
(keys unique, lookup by key). -/
inductive Json where
  | null : Json
  | bool (b : Bool) : Json
  | num (n : Int) : Json
  | str (s : String) : Json
  | arr (elems : List Json) : Json
  | obj (fields : List (String × Json)) : Json

/-- Lookup in an association list, modelling a Go map read `m[k]`. -/
def assocGet {α : Type} : List (String × α) → String → Option α
  | [], _ => none
  | (k0, v0) :: rest, k => if k0 = k then some v0 else assocGet rest k

/-- Assignment into an association list, modelling a Go map write
`m[k] = v`: replaces an existing binding of the key, else appends. -/
def assocSet {α : Type} : List (String × α) → String → α → List (String × α)
  | [], k, v => [(k, v)]
  | (k0, v0) :: rest, k, v =>
      if k0 = k then (k, v) :: rest else (k0, v0) :: assocSet rest k v

/-! ## data/data.go: the manifest structures (IndexTicket, AttachmentMeta) -/

/-- One attachment entry of a manifest transaction (struct field
the nested Attachments struct list in data.go and the builder). -/
structure IndexAttachment where
  id : String
deriving DecidableEq, Repr

/-- One transaction entry of a manifest ticket. -/
structure IndexTransaction where
  id : String
  attachments : List IndexAttachment
deriving DecidableEq, Repr

/-- A manifest entry, the IndexTicket struct of data.go (the ticket
struct of the index builder has the identical shape and json tags). -/
structure IndexTicket where
  id : String
  status : String
  subject : String
  transactions : List IndexTransaction
deriving DecidableEq, Repr

/-- The AttachmentMeta struct of data.go: where an attachment lives inside its
owning ticket document. -/
structure AttachmentMeta where
  ticketID : String
  transactionOffset : Nat
  attachmentOffset : Nat
deriving DecidableEq, Repr

/-- The error kind surfaced by LoadIndex / the manifest decoder
(a malformed manifest document; Go returns the error of the json package). -/
inductive LoadError where
  | malformedManifest : LoadError
deriving DecidableEq, Repr

/-! ## Decoding a manifest entry (encoding/json Unmarshal into IndexTicket)

Go Unmarshal into a struct: a JSON null leaves the zero value, an
object fills matching fields (absent fields keep their zero value), and
any other JSON kind is a type error.  Field names are matched by their
json tags; the documents at hand use the exact-case names, which is
what we model. -/

/-- Field access on a decoded object: a missing key behaves like null
(the struct field keeps its zero value). -/
def fieldOrNull (fields : List (String × Json)) (k : String) : Json :=
  (assocGet fields k).getD Json.null

/-- Unmarshal a JSON value into a Go string field. -/
def decodeStr : Json → Except LoadError String
  | .str s => .ok s
  | .null => .ok ""
  | _ => .error .malformedManifest

/-- Unmarshal into the nested `Attachments` element struct. -/
def decodeIndexAttachment : Json → Except LoadError IndexAttachment
  | .null => .ok { id := "" }
  | .obj fs => do
      let i ← decodeStr (fieldOrNull fs "Id")
      .ok { id := i }
  | _ => .error .malformedManifest

/-- Unmarshal a JSON value into a Go slice field, element by element. -/
def decodeListWith {α : Type} (dec : Json → Except LoadError α) :
    Json → Except LoadError (List α)
  | .null => .ok []
  | .arr es => es.mapM dec
  | _ => .error .malformedManifest

/-- Unmarshal into the nested `Transactions` element struct. -/
def decodeIndexTransaction : Json → Except LoadError IndexTransaction
  | .null => .ok { id := "", attachments := [] }
  | .obj fs => do
      let i ← decodeStr (fieldOrNull fs "Id")
      let atts ← decodeListWith decodeIndexAttachment (fieldOrNull fs "Attachments")
      .ok { id := i, attachments := atts }
  | _ => .error .malformedManifest

/-- Unmarshal one manifest entry into the IndexTicket struct of data.go. -/
def decodeIndexTicket : Json → Except LoadError IndexTicket
  | .null => .ok { id := "", status := "", subject := "", transactions := [] }
  | .obj fs => do
      let i ← decodeStr (fieldOrNull fs "Id")
      let st ← decodeStr (fieldOrNull fs "Status")
      let su ← decodeStr (fieldOrNull fs "Subject")
      let trs ← decodeListWith decodeIndexTransaction (fieldOrNull fs "Transactions")
      .ok { id := i, status := st, subject := su, transactions := trs }
  | _ => .error .malformedManifest

/-! ## data/data.go lines 173-235: processIndexTicket and LoadIndex -/

/-- The state LoadIndex builds up inside Data: the ticketIndex slice and
the attachmentMetaMap. -/
structure LoadState where
  ticketIndex : List IndexTicket
  attachmentMetaMap : List (String × AttachmentMeta)
deriving DecidableEq, Repr

def emptyLoadState : LoadState := { ticketIndex := [], attachmentMetaMap := [] }

/-- Inner loop of processIndexTicket: `for attOff, att := range
tr.Attachments` inserting att.ID -> (ticket, trOff, attOff). -/
def insertAttachments (tid : String) (trOff : Nat) :
    Nat → List IndexAttachment → List (String × AttachmentMeta) →
    List (String × AttachmentMeta)
  | _, [], m => m
  | attOff, a :: rest, m =>
      insertAttachments tid trOff (attOff + 1) rest
        (assocSet m a.id
          { ticketID := tid, transactionOffset := trOff, attachmentOffset := attOff })

/-- Outer loop of processIndexTicket: `for trOff, tr := range
t.Transactions`. -/
def insertTransactions (tid : String) :
    Nat → List IndexTransaction → List (String × AttachmentMeta) →
    List (String × AttachmentMeta)
  | _, [], m => m
  | trOff, tr :: rest, m =>
      insertTransactions tid (trOff + 1) rest
        (insertAttachments tid trOff 0 tr.attachments m)

/-- data.go processIndexTicket: appends the entry to ticketIndex and
records every (transaction, attachment) position in attachmentMetaMap.
A colliding attachment id simply overwrites the previous mapping, as a
Go map assignment does. -/
def processIndexTicket (st : LoadState) (t : IndexTicket) : LoadState :=
  { ticketIndex := st.ticketIndex ++ [t]
    attachmentMetaMap := insertTransactions t.id 0 t.transactions st.attachmentMetaMap }

/-- Decode-and-process loop of LoadIndex (`for j.More() \x7b ... \x7d`),
stopping at the first decode failure. -/
def loadEntries (st : LoadState) : List Json → Except LoadError LoadState
  | [] => .ok st
  | e :: rest =>
      match decodeIndexTicket e with
      | .error err => .error err
      | .ok t => loadEntries (processIndexTicket st t) rest

/-- Decode every manifest entry in order, stopping at the first
failure: the entry list a fully successful LoadIndex run consumes. -/
def decodeEntries : List Json → Except LoadError (List IndexTicket)
  | [] => .ok []
  | e :: rest =>
      match decodeIndexTicket e with
      | .error err => .error err
      | .ok t =>
          match decodeEntries rest with
          | .error err => .error err
          | .ok ts => .ok (t :: ts)

/-- data.go LoadIndex, on the parsed manifest document.  The Go code
reads one opening token (any delimiter is accepted), decodes entries
while More() reports another element, then reads the closing token:
  - an array is consumed entry by entry;
  - an empty JSON object is accepted too: its two braces are consumed
    as the opening and closing tokens with no elements in between,
    leaving an empty index;
  - every other document fails: a non-empty object fails when a key is
    decoded into the entry struct, and a scalar document fails when the
    closing-token read hits EOF. -/
def LoadIndex (v : Json) : Except LoadError LoadState :=
  match v with
  | .obj [] => .ok emptyLoadState
  | .arr es => loadEntries emptyLoadState es
  | _ => .error .malformedManifest

/-! ## data/data.go lines 237-290: GetTicket and GetAttachment -/

/-- The Data handle: the ticket source (parsed document per ticket id;
an absent id is NotFound at the backend), the optional RT-to-GitHub id
map, and the offset index built by LoadIndex. -/
structure Data where
  tickets : List (String × Json)
  rtGitHubMap : List (String × String)
  attachmentMetaMap : List (String × AttachmentMeta)

/-- Outcome kinds of GetTicket.  `panicked` models the Go runtime panic
raised by reflect.Value.SetMapIndex when the fetched document is not a
map. -/
inductive TicketError where
  | notFound (id : String) : TicketError
  | panicked : TicketError
deriving DecidableEq, Repr

/-- data.go GetTicket: fetches the parsed document and uses reflection
to write a GitHubIssue field into the map of the document, taking the mapped
GitHub id or the empty string.  The mutated document is returned. -/
def GetTicket (d : Data) (id : String) : Except TicketError Json :=
  match assocGet d.tickets id with
  | none => .error (.notFound id)
  | some t =>
      match t with
      | .obj fields =>
          .ok (.obj (assocSet fields "GitHubIssue"
            (.str ((assocGet d.rtGitHubMap id).getD ""))))
      | _ => .error .panicked

/-- Outcome kinds of GetAttachment, one per return site of the Go code:
  - metaNotFound: the "cannot find metadata for attachment" string, the
    no-such-resource outcome for ids absent from the offset index;
  - ticketFetch: the wrapped getTicket storage error;
  - panicked: a Go runtime panic from a failed type assertion or an
    out-of-range slice index while walking the document;
  - malformedAttachment: the "cannot decode attachment" string, a base64 failure. -/
inductive AttachmentError where
  | metaNotFound (id : String) : AttachmentError
  | ticketFetch (ticketID : String) : AttachmentError
  | panicked : AttachmentError
  | malformedAttachment : AttachmentError
deriving DecidableEq, Repr

/-- Whether an AttachmentError is the NotFound kind (the only outcome
that means "no such resource" rather than an internal failure). -/
def AttachmentError.isNotFound : AttachmentError → Bool
  | .metaNotFound _ => true
  | _ => false

/-- The strings.HasPrefix(contentType, "text/") test of GetAttachment,
stated on the character list of the string. -/
def isTextContentType (ct : String) : Bool :=
  match ct.data with
  | 't' :: 'e' :: 'x' :: 't' :: '/' :: _ => true
  | _ => false

/-- UTF-8 encoding of one character, modelling the Go string-to-bytes
conversion. -/
def utf8EncodeCharBytes (c : Char) : List Nat :=
  let n := c.toNat
  if n < 0x80 then [n]
  else if n < 0x800 then
    [0xC0 + n / 64, 0x80 + n % 64]
  else if n < 0x10000 then
    [0xE0 + n / 4096, 0x80 + n / 64 % 64, 0x80 + n % 64]
  else
    [0xF0 + n / 262144, 0x80 + n / 4096 % 64, 0x80 + n / 64 % 64, 0x80 + n % 64]

/-- Go `[]byte(s)`: the UTF-8 bytes of a string. -/
def utf8Bytes (s : String) : List Nat :=
  s.data.foldr (fun c acc => utf8EncodeCharBytes c ++ acc) []

/-- Value of one character of the standard base64 alphabet. -/
def base64Val (c : Char) : Option Nat :=
  if 'A' ≤ c ∧ c ≤ 'Z' then some (c.toNat - 'A'.toNat)
  else if 'a' ≤ c ∧ c ≤ 'z' then some (c.toNat - 'a'.toNat + 26)
  else if '0' ≤ c ∧ c ≤ '9' then some (c.toNat - '0'.toNat + 52)
  else if c = '+' then some 62
  else if c = '/' then some 63
  else none

/-- Decode one full base64 quantum of four alphabet characters into
three bytes. -/
def base64Quantum (a b c d : Char) : Option (List Nat) :=
  match base64Val a, base64Val b, base64Val c, base64Val d with
  | some va, some vb, some vc, some vd =>
      some [va * 4 + vb / 16, vb % 16 * 16 + vc / 4, vc % 4 * 64 + vd]
  | _, _, _, _ => none

/-- Decode the final base64 quantum, which may carry one or two padding
characters.  the Go default (non-strict) decoder ignores nonzero unused
trailing bits. -/
def base64FinalQuantum (a b c d : Char) : Option (List Nat) :=
  if c = '=' then
    if d = '=' then
      match base64Val a, base64Val b with
      | some va, some vb => some [va * 4 + vb / 16]
      | _, _ => none
    else none
  else if d = '=' then
    match base64Val a, base64Val b, base64Val c with
    | some va, some vb, some vc => some [va * 4 + vb / 16, vb % 16 * 16 + vc / 4]
    | _, _, _ => none
  else base64Quantum a b c d

/-- Decode a base64 character stream quantum by quantum; the input
length must be a multiple of four and only the final quantum may be
padded. -/
def base64Chars : List Char → Option (List Nat)
  | [] => some []
  | a :: b :: c :: d :: rest =>
      match rest with
      | [] => base64FinalQuantum a b c d
      | _ =>
          match base64Quantum a b c d, base64Chars rest with
          | some bytes, some more => some (bytes ++ more)
          | _, _ => none
  | _ => none

/-- Go base64.StdEncoding.DecodeString: standard alphabet, padding
required, newline and carriage-return characters skipped, any other
violation an error. -/
def base64Decode (s : String) : Except Unit (List Nat) :=
  match base64Chars (s.data.filter (fun c => c ≠ '\n' ∧ c ≠ '\r')) with
  | some bytes => .ok bytes
  | none => .error ()

/-- data.go GetAttachment: offset-index lookup, ticket fetch, then an
unchecked walk t["Transactions"][toff]["Attachments"][aoff] done with
type assertions and slice indexing — any mismatch or out-of-range
offset is a runtime panic, modelled as the panicked outcome.  Content
bytes are the stored string for text/ content types, else its base64
decoding. -/
def GetAttachment (d : Data) (id : String) :
    Except AttachmentError (String × String × List Nat) :=
  match assocGet d.attachmentMetaMap id with
  | none => .error (.metaNotFound id)
  | some meta =>
      match GetTicket d meta.ticketID with
      | .error .panicked => .error .panicked
      | .error (.notFound _) => .error (.ticketFetch meta.ticketID)
      | .ok tick =>
          match tick with
          | .obj tfields =>
              match assocGet tfields "Transactions" with
              | some (.arr ts) =>
                  match ts.get? meta.transactionOffset with
                  | some (.obj trFields) =>
                      match assocGet trFields "Attachments" with
                      | some (.arr atts) =>
                          match atts.get? meta.attachmentOffset with
                          | some (.obj attFields) =>
                              match assocGet attFields "ContentType",
                                    assocGet attFields "Filename",
                                    assocGet attFields "OriginalContent" with
                              | some (.str contentType), some (.str filename),
                                some (.str originalContent) =>
                                  if isTextContentType contentType then
                                    .ok (filename, contentType, utf8Bytes originalContent)
                                  else
                                    match base64Decode originalContent with
                                    | .ok content => .ok (filename, contentType, content)
                                    | .error _ => .error .malformedAttachment
                              | _, _, _ => .error .panicked
                          | _ => .error .panicked
                      | _ => .error .panicked
                  | _ => .error .panicked
              | _ => .error .panicked
          | _ => .error .panicked

/-! ## web/web.go searchHandler (lines 209-303): query handling and
pagination.  All request parameters arrive as strings; start and num are
parsed as uint64 with the error discarded; arithmetic on them is uint64
arithmetic, modelled on Nat modulo 2^64. -/

/-- The modulus 2 to the 64 of Go uint64 arithmetic. -/
def u64Mod : Nat := 2 ^ 64

/-- Digits of a decimal string folded into a Nat. -/
def digitsVal (s : String) : Nat :=
  s.data.foldl (fun acc c => acc * 10 + (c.toNat - '0'.toNat)) 0

/-- Go strconv.ParseUint(s, 10, 64) with the error discarded, as the
handler does: a syntax error yields 0, a range overflow yields the
clamped maximum 2^64-1. -/
def parseUint64 (s : String) : Nat :=
  if s ≠ "" ∧ s.data.all Char.isDigit then min (digitsVal s) (u64Mod - 1)
  else 0

/-- The page-size clamp of searchHandler: 0 and anything above 100
become the default 25. -/
def effectivePageSize (n : Nat) : Nat :=
  if n = 0 then 25 else if n > 100 then 25 else n

/-- The order-flag default: anything but "0" or "1" becomes "1"
(descending). -/
def effectiveOrder (s : String) : String :=
  if s = "0" ∨ s = "1" then s else "1"

/-- The search request the handler hands to the bleve engine
(bleve.NewSearchRequestOptions plus SortBy and Fields). -/
structure SearchRequest where
  query : String
  size : Nat
  fromOffset : Nat
  sortBy : List String
  fields : List String
deriving DecidableEq, Repr

/-- The request sent to the full-text engine for raw form values q,
start, num, order; none when q is empty (an empty query is not sent to
the engine at all).  The query of the request is the raw form value q:
the asterisk rewrite of the handler assigns only to the display field
d.Query, not to the variable the request is built from. -/
def engineRequest (q startS numS orderS : String) : Option SearchRequest :=
  if q = "" then none
  else
    some { query := q
           size := effectivePageSize (parseUint64 numS)
           fromOffset := parseUint64 startS
           sortBy := if effectiveOrder orderS = "0" then ["id"] else ["-id"]
           fields := ["id", "status", "subject"] }

/-- The displayed query field d.Query: q, with exactly `*` rewritten to
"status:*". -/
def displayQuery (q : String) : String :=
  if q = "*" then "status:*" else q

/-- Lines 290-293: the next link is rendered iff start+pageSize (uint64
addition) is below the reported total; the start parameter of the link is
that sum. -/
def nextLink (start pageSize total : Nat) : Option Nat :=
  if (start + pageSize) % u64Mod < total then some ((start + pageSize) % u64Mod)
  else none

/-- Lines 294-297: prev := start - pageSize in uint64 (wrapping
subtraction); the link is rendered iff prev < 999999999 (the prev >= 0
guard is vacuous on an unsigned value). -/
def prevLink (start pageSize : Nat) : Option Nat :=
  if (start + u64Mod - pageSize) % u64Mod < 999999999 then
    some ((start + u64Mod - pageSize) % u64Mod)
  else none

/-- The pagination fields of the rendered search page, for a non-empty
query whose engine call reported the given total: the d struct of the handler,
restricted to Query, Start, End, PageSize, Total, Next, Prev
(the links carry their start parameter). -/
structure SearchPage where
  query : String
  startField : Nat
  endField : Nat
  pageSize : Nat
  total : Nat
  next : Option Nat
  prev : Option Nat
deriving DecidableEq, Repr

/-- Assembly of the search page from the raw form values and the
engine-reported total (searchHandler lines 281-297). -/
def searchPage (q startS numS _orderS : String) (total : Nat) : SearchPage :=
  let start := parseUint64 startS
  let pageSize := effectivePageSize (parseUint64 numS)
  { query := displayQuery q
    startField := (start + 1) % u64Mod
    endField := min ((start + pageSize) % u64Mod) total
    pageSize := pageSize
    total := total
    next := nextLink start pageSize total
    prev := prevLink start pageSize }

/-! ## The index builder (readTickets, writeIndexJSON)

The ticket struct of the builder has exactly the field set and json
tags of the IndexTicket struct of data.go, so entries reuse IndexTicket here. -/

/-- One file of the data directory: its base name and its parsed JSON
content. -/
structure TicketFile where
  name : String
  content : Json

/-- The regular expression `\d+\.json$` used by readTickets: satisfied
iff the name ends in ".json" immediately preceded by a digit (then at
least one digit precedes the suffix). -/
def matchesTicketFilePattern (name : String) : Bool :=
  match name.data.reverse with
  | 'n' :: 'o' :: 's' :: 'j' :: '.' :: c :: _ => c.isDigit
  | _ => false

/-- The filepath.Glob pattern "*.json": a star matches any sequence of
non-separator characters (base names hold none), so a name matches iff
it ends in ".json". -/
def globMatchesJson (name : String) : Bool :=
  match name.data.reverse with
  | 'n' :: 'o' :: 's' :: 'j' :: '.' :: _ => true
  | _ => false

/-- The filepath.Glob "*.json" step of readTickets: only matching names
are enumerated at all.  Glob returns them sorted, but the enumeration
order never reaches the output, so it is not modelled. -/
def globJson (files : List TicketFile) : List TicketFile :=
  files.filter (fun f => globMatchesJson f.name)

/-- The deterministic part of readTickets: each enumerated file whose
name matches the pattern is parsed (processFile); a parse failure is
fatal to the whole run (log.Fatalf), so the result is the parses of
exactly the matching files.  The order here is the enumeration order;
the concurrent run delivers these tickets in nondeterministic
completion order, which readTicketsResult accounts for. -/
def readTicketsParsed (files : List TicketFile) :
    Except LoadError (List IndexTicket) :=
  ((globJson files).filter (fun f => matchesTicketFilePattern f.name)).mapM
    (fun f => decodeIndexTicket f.content)

/-- Go strconv.Atoi with the error discarded, as the sort callback
does: optional sign, else and on empty or non-digit input the zero
value 0; a value outside the int64 range comes back clamped at the
range bound (the ErrRange behaviour of ParseInt). -/
def atoi (s : String) : Int :=
  match s.data with
  | [] => 0
  | '-' :: rest =>
      if rest ≠ [] ∧ rest.all Char.isDigit then
        max (-((2 : Int) ^ 63)) (-(digitsVal (String.mk rest) : Int))
      else 0
  | '+' :: rest =>
      if rest ≠ [] ∧ rest.all Char.isDigit then
        min ((2 : Int) ^ 63 - 1) (digitsVal (String.mk rest) : Int)
      else 0
  | cs =>
      if cs.all Char.isDigit then
        min ((2 : Int) ^ 63 - 1) (digitsVal s : Int)
      else 0

/-- The sort key order of the sort.Slice callback in readTickets: numeric
ticket id, ascending. -/
def ticketIdLE (a b : IndexTicket) : Prop := atoi a.id ≤ atoi b.id

instance : DecidableRel ticketIdLE := fun a b => by
  unfold ticketIdLE
  infer_instance

/-- readTickets as a relation from the enumerated files to a possible
returned ticket slice.  The workers append each parsed ticket to the
shared slice in nondeterministic completion order and sort.Slice (an
unstable sort) then orders the slice by the numeric-id key, so the run
can return any permutation of the parsed tickets that is sorted under
that key. -/
def readTicketsResult (files : List TicketFile) (out : List IndexTicket) : Prop :=
  ∃ parsed, readTicketsParsed files = .ok parsed ∧
    out.Perm parsed ∧ out.Pairwise ticketIdLE

/-! ### writeIndexJSON: Go json.Marshal of the ticket slice -/

/-- JSON string escaping as encoding/json performs it for the strings
at hand (quote, backslash and ASCII control characters; the HTML
escapes of <, > and & are modelled too). -/
def jsonEscapeChar (c : Char) : List Char :=
  if c = '"' then ['\\', '"']
  else if c = '\\' then ['\\', '\\']
  else if c = '\n' then ['\\', 'n']
  else if c = '\r' then ['\\', 'r']
  else if c = '\t' then ['\\', 't']
  else if c = '<' then ['\\', 'u', '0', '0', '3', 'c']
  else if c = '>' then ['\\', 'u', '0', '0', '3', 'e']
  else if c = '&' then ['\\', 'u', '0', '0', '2', '6']
  else [c]

/-- A JSON string literal. -/
def jsonStr (s : String) : String :=
  "\"" ++ String.mk (s.data.foldr (fun c acc => jsonEscapeChar c ++ acc) []) ++ "\""

/-- Marshal of one Attachments element. -/
def marshalAttachment (a : IndexAttachment) : String :=
  "\x7b\"Id\":" ++ jsonStr a.id ++ "\x7d"

/-- Marshal of a slice: its elements comma-separated in brackets.  (A
nil slice marshals as null in Go; the model does not distinguish nil
from empty, which only renames the empty case and cannot make two
distinct runs agree.) -/
def marshalList (elems : List String) : String :=
  "[" ++ String.intercalate "," elems ++ "]"

/-- Marshal of one Transactions element, fields in declaration order. -/
def marshalTransaction (t : IndexTransaction) : String :=
  "\x7b\"Id\":" ++ jsonStr t.id ++ ",\"Attachments\":" ++
    marshalList (t.attachments.map marshalAttachment) ++ "\x7d"

/-- Marshal of one ticket struct, fields in declaration order with
their json tags. -/
def marshalTicket (t : IndexTicket) : String :=
  "\x7b\"Id\":" ++ jsonStr t.id ++ ",\"Status\":" ++ jsonStr t.status ++
    ",\"Subject\":" ++ jsonStr t.subject ++ ",\"Transactions\":" ++
    marshalList (t.transactions.map marshalTransaction) ++ "\x7d"

/-- The json.Marshal(tickets) call of writeIndexJSON: the manifest document
bytes. -/
def marshalTickets (ts : List IndexTicket) : String :=
  marshalList (ts.map marshalTicket)

/-! ## Derived notions used by the statements below -/

/-- An offset-index binding (key, meta) is consistent with a manifest:
some manifest entry carries the ticket id of the binding, has a
transaction at the recorded transaction position, an attachment at the
recorded attachment position within it, and that attachment carries
exactly the key as its id. -/
def consistentWith (tickets : List IndexTicket) (k : String)
    (meta : AttachmentMeta) : Prop :=
  ∃ t ∈ tickets, t.id = meta.ticketID ∧
    ∃ tr, t.transactions.get? meta.transactionOffset = some tr ∧
      ∃ a, tr.attachments.get? meta.attachmentOffset = some a ∧ a.id = k

/-- All attachment ids of a manifest, in manifest order. -/
def manifestAttachmentIds (tickets : List IndexTicket) : List String :=
  tickets.flatMap (fun t =>
    t.transactions.flatMap (fun tr => tr.attachments.map (fun a => a.id)))

/-! ### Concrete documents used by counterexamples and witnesses -/

/-- A two-entry manifest in which attachment id "a1" occurs at two
different (ticket, transaction, attachment) locations. -/
def dupManifest : Json :=
  .arr
    [ .obj [("Id", .str "1"),
        ("Transactions", .arr [.obj [("Id", .str "t1"),
          ("Attachments", .arr [.obj [("Id", .str "a1")]])]])],
      .obj [("Id", .str "2"),
        ("Transactions", .arr [.obj [("Id", .str "t2"),
          ("Attachments", .arr [.obj [("Id", .str "a1")]])]])] ]

/-- Parsed form of the first dupManifest entry. -/
def dupTicket1 : IndexTicket :=
  { id := "1", status := "", subject := ""
    transactions := [{ id := "t1", attachments := [{ id := "a1" }] }] }

/-- Parsed form of the second dupManifest entry. -/
def dupTicket2 : IndexTicket :=
  { id := "2", status := "", subject := ""
    transactions := [{ id := "t2", attachments := [{ id := "a1" }] }] }

/-- Two well-formed ticket files whose ids "7" and "007" have the same
numeric value 7. -/
def tiedFiles : List TicketFile :=
  [ { name := "7.json"
      content := .obj [("Id", .str "7"), ("Subject", .str "A")] },
    { name := "8.json"
      content := .obj [("Id", .str "007"), ("Subject", .str "B")] } ]

/-- Parsed form of the first tiedFiles entry. -/
def tiedTicketA : IndexTicket :=
  { id := "7", status := "", subject := "A", transactions := [] }

/-- Parsed form of the second tiedFiles entry. -/
def tiedTicketB : IndexTicket :=
  { id := "007", status := "", subject := "B", transactions := [] }

/-- Three well-formed numeric-id ticket files plus one file that does
not match the numeric-id pattern. -/
def scenarioFiles : List TicketFile :=
  [ { name := "1.json", content := .obj [("Id", .str "1")] },
    { name := "2.json", content := .obj [("Id", .str "2")] },
    { name := "3.json", content := .obj [("Id", .str "3")] },
    { name := "notes.txt", content := .str "not a ticket" } ]

/-- Two well-formed ticket files with distinct numeric ids. -/
def distinctFiles : List TicketFile :=
  [ { name := "1.json", content := .obj [("Id", .str "1")] },
    { name := "2.json", content := .obj [("Id", .str "2")] } ]

/-- Parsed form of the first distinctFiles entry. -/
def distinctTicket1 : IndexTicket :=
  { id := "1", status := "", subject := "", transactions := [] }

/-- Parsed form of the second distinctFiles entry. -/
def distinctTicket2 : IndexTicket :=
  { id := "2", status := "", subject := "", transactions := [] }

/-! ## Shared lemmas -/

/-- Lookup after a map assignment: the assigned key reads the new
value, every other key reads as before. -/
theorem assocGet_assocSet {α : Type} (m : List (String × α)) (k k2 : String) (v : α) :
    assocGet (assocSet m k v) k2 = if k = k2 then some v else assocGet m k2 := by
  induction m with
  | nil =>
      by_cases h : k = k2 <;> simp [assocSet, assocGet, h]
  | cons p rest ih =>
      obtain ⟨k0, v0⟩ := p
      by_cases h0 : k0 = k
      · subst h0
        by_cases h2 : k0 = k2
        · subst h2; simp [assocSet, assocGet]
        · simp [assocSet, assocGet, h2]
      · by_cases h2 : k0 = k2
        · subst h2
          have hne : ¬ k = k0 := fun h => h0 h.symm
          simp [assocSet, assocGet, h0, hne]
        · simp [assocSet, assocGet, h0, h2, ih]

/-! ## C1 -/

/-- C1: the claim states that a search for exactly `*` reaches the
full-text engine as the rewritten query "status:*".  In the code the
rewrite assigns only to the display copy of the query (d.Query); the
bleve request is built from the raw form value, so the engine receives
the raw `*`.  This theorem evaluates the handler at the failing input:
the request query is "*", not "status:*", while the display field does
show the rewritten query. -/
theorem searchHandler_star_query_sent_to_engine_raw :
    (engineRequest "*" "" "" "").map SearchRequest.query = some "*" ∧
    (engineRequest "*" "" "" "").map SearchRequest.query ≠ some "status:*" ∧
    displayQuery "*" = "status:*" := by
  refine ⟨rfl, ?_, rfl⟩
  decide

/-! ## C2 -/

/-- C2, counterexample: GetTicket does not return the fetched document
unchanged.  For a stored ticket document with the single field "Id",
GetTicket returns a document with an added "GitHubIssue" field (the
reflection-based SetMapIndex write), so the result differs from the
stored document. -/
theorem getTicket_mutation_counterexample :
    GetTicket { tickets := [("1", Json.obj [("Id", Json.str "1")])],
                rtGitHubMap := [], attachmentMetaMap := [] } "1"
      = .ok (Json.obj [("Id", Json.str "1"), ("GitHubIssue", Json.str "")]) ∧
    GetTicket { tickets := [("1", Json.obj [("Id", Json.str "1")])],
                rtGitHubMap := [], attachmentMetaMap := [] } "1"
      ≠ .ok (Json.obj [("Id", Json.str "1")]) := by
  constructor
  · rfl
  · intro h
    injection h with h1
    injection h1 with h2
    injection h2 with _ h3
    injection h3

/-- C2, amended: GetTicket returns the fetched document with exactly
the field "GitHubIssue" written (to the mapped GitHub id, or "" when
the ticket is unmapped); every other field of the document reads
unchanged. -/
theorem getTicket_adds_github_issue_field_only (d : Data) (id : String)
    (fields : List (String × Json))
    (h : assocGet d.tickets id = some (Json.obj fields)) :
    ∃ out, GetTicket d id = .ok (Json.obj out) ∧
      assocGet out "GitHubIssue" =
        some (Json.str ((assocGet d.rtGitHubMap id).getD "")) ∧
      ∀ k, k ≠ "GitHubIssue" → assocGet out k = assocGet fields k := by
  refine ⟨assocSet fields "GitHubIssue" (.str ((assocGet d.rtGitHubMap id).getD "")),
    ?_, ?_, ?_⟩
  · unfold GetTicket
    rw [h]
  · rw [assocGet_assocSet]
    simp
  · intro k hk
    rw [assocGet_assocSet, if_neg (fun he => hk he.symm)]

/-- C2, witness for the amended theorem at a concrete store. -/
theorem getTicket_adds_github_issue_field_only_witness :
    ∃ out, GetTicket { tickets := [("1", Json.obj [("Id", Json.str "1")])],
                       rtGitHubMap := [], attachmentMetaMap := [] } "1"
        = .ok (Json.obj out) ∧
      assocGet out "GitHubIssue" = some (Json.str "") ∧
      ∀ k, k ≠ "GitHubIssue" → assocGet out k = assocGet [("Id", Json.str "1")] k :=
  getTicket_adds_github_issue_field_only
    { tickets := [("1", Json.obj [("Id", Json.str "1")])],
      rtGitHubMap := [], attachmentMetaMap := [] } "1" [("Id", Json.str "1")] rfl

/-! ## C3 -/

/-- C3: the claim states that GetAttachment returns a descriptive error
(and does not panic) when an offset-index entry is out of range for the
fetched document.  The code walks the document with unchecked slice
indexing, so an out-of-range transaction position is a runtime panic.
Failing input: attachment "a1" recorded at transaction position 1 of
ticket "1", whose document has a single transaction. -/
theorem getAttachment_out_of_range_panics :
    GetAttachment
      { tickets := [("1", Json.obj
          [("Transactions", Json.arr [Json.obj [("Attachments", Json.arr [])]])])],
        rtGitHubMap := [],
        attachmentMetaMap := [("a1",
          { ticketID := "1", transactionOffset := 1, attachmentOffset := 0 })] }
      "a1" = .error .panicked := rfl

/-! ## C4 -/

/-- The entry loop of LoadIndex is the fold of processIndexTicket over
the decoded entries, failing iff some entry fails to decode. -/
theorem loadEntries_eq (es : List Json) :
    ∀ st, loadEntries st es =
      (decodeEntries es).map (fun ts => ts.foldl processIndexTicket st) := by
  induction es with
  | nil =>
      intro st
      rfl
  | cons e rest ih =>
      intro st
      cases hd : decodeIndexTicket e with
      | error err =>
          simp [loadEntries, decodeEntries, hd, Except.map]
      | ok t =>
          simp only [loadEntries, decodeEntries, hd]
          rw [ih (processIndexTicket st t)]
          cases hr : decodeEntries rest with
          | error err => simp [Except.map, hr]
          | ok ts => simp [Except.map, hr]

/-- C4, counterexample: the offset index built from a manifest in which
attachment id "a1" occurs at two different locations loads without any
error — the claim says this fails with a MalformedManifest kind.  The
second location silently replaces the first in the map. -/
theorem loadIndex_duplicate_attachment_id_succeeds :
    LoadIndex dupManifest =
      .ok { ticketIndex := [dupTicket1, dupTicket2]
            attachmentMetaMap := [("a1",
              { ticketID := "2", transactionOffset := 0, attachmentOffset := 0 })] } ∧
    manifestAttachmentIds [dupTicket1, dupTicket2] = ["a1", "a1"] := by
  exact ⟨rfl, rfl⟩

/-- C4, amended: building the offset index never fails on a duplicated
attachment id — a well-formed array of decodable entries always loads,
with a later occurrence of an id silently replacing an earlier mapping;
and a manifest document that is neither an array nor the empty JSON
object fails to load (the token-based decoder accepts an empty object
as a trivially empty manifest). -/
theorem loadIndex_success_and_failure_conditions :
    (∀ es ts, decodeEntries es = .ok ts →
        LoadIndex (.arr es) = .ok (ts.foldl processIndexTicket emptyLoadState)) ∧
    (∀ v : Json, (∀ es, v ≠ .arr es) → v ≠ .obj [] →
        LoadIndex v = .error .malformedManifest) := by
  constructor
  · intro es ts h
    show loadEntries emptyLoadState es = _
    rw [loadEntries_eq, h]
    rfl
  · intro v harr hobj
    cases v with
    | null => rfl
    | bool b => rfl
    | num n => rfl
    | str s => rfl
    | arr es => exact absurd rfl (harr es)
    | obj fs =>
        cases fs with
        | nil => exact absurd rfl hobj
        | cons f fs2 => rfl

/-- C4, witness: the empty manifest array loads to the empty state and
a scalar manifest document fails. -/
theorem loadIndex_success_and_failure_conditions_witness :
    LoadIndex (.arr []) = .ok emptyLoadState ∧
    LoadIndex (.str "x") = .error .malformedManifest :=
  ⟨loadIndex_success_and_failure_conditions.1 [] [] rfl,
   loadIndex_success_and_failure_conditions.2 (.str "x")
     (fun _ h => Json.noConfusion h) (fun h => Json.noConfusion h)⟩

/-! ## C5 -/

/-- C5, counterexample: for total 2000000000, effective page size 25
and start offset 1000000024 (so start is below the total and the claim
demands a previous link, as 1000000024 - 25 is nonnegative), the
handler renders no previous link: prev = 999999999 in uint64 and the
guard prev < 999999999 rejects it. -/
theorem prev_link_suppressed_despite_nonnegative_offset :
    (searchPage "x" "1000000024" "25" "1" 2000000000).prev = none ∧
    (searchPage "x" "1000000024" "25" "1" 2000000000).pageSize = 25 ∧
    (searchPage "x" "1000000024" "25" "1" 2000000000).total = 2000000000 ∧
    (1000000024 : Nat) < 2000000000 ∧
    (0 : Int) ≤ (1000000024 : Int) - 25 := by
  refine ⟨?_, rfl, rfl, by norm_num, by norm_num⟩
  rfl

/-- C5, amended: for every total T < 2^64, effective page size P (the
clamp yields 1 ≤ P ≤ 100) and start S < 2^64 with S < T, the next link
is rendered iff (S + P) mod 2^64 < T, and the previous link is rendered
iff both P ≤ S and S - P < 999999999 (the code computes S - P in
wrapping uint64 arithmetic and renders the link only below the
999999999 guard, so a previous offset of 999999999 or more is
suppressed even though it is nonnegative). -/
theorem pagination_links_characterization (S P T : Nat)
    (hS : S < 2 ^ 64) (hT : T < 2 ^ 64) (hST : S < T)
    (hP1 : 1 ≤ P) (hP2 : P ≤ 100) :
    ((nextLink S P T).isSome ↔ (S + P) % 2 ^ 64 < T) ∧
    ((prevLink S P).isSome ↔ (P ≤ S ∧ S - P < 999999999)) := by
  have hpow : (2 : Nat) ^ 64 = 18446744073709551616 := by norm_num
  constructor
  · unfold nextLink u64Mod
    split <;> simp_all
  · have key : ((S + u64Mod - P) % u64Mod < 999999999) ↔
        (P ≤ S ∧ S - P < 999999999) := by
      unfold u64Mod
      rw [hpow]
      rw [hpow] at hS
      omega
    unfold prevLink
    split <;> simp_all

/-- C5, witness for the amended pagination characterization at start
30, page size 25, total 100. -/
theorem pagination_links_characterization_witness :
    ((nextLink 30 25 100).isSome ↔ (30 + 25) % 2 ^ 64 < 100) ∧
    ((prevLink 30 25).isSome ↔ (25 ≤ 30 ∧ 30 - 25 < 999999999)) :=
  pagination_links_characterization 30 25 100 (by norm_num) (by norm_num)
    (by norm_num) (by norm_num) (by norm_num)

/-! ## C6 -/

/-- When the attachment id is a key of the offset index, no error
GetAttachment can return is of the NotFound kind: every later failure
surfaces as a wrapped ticket-fetch error, a panic, or the malformed
attachment error. -/
theorem getAttachment_present_never_notfound (d : Data) (id : String)
    (meta : AttachmentMeta) (hm : assocGet d.attachmentMetaMap id = some meta) :
    ∀ e, GetAttachment d id = .error e → e.isNotFound = false := by
  intro e he
  unfold GetAttachment at he
  rw [hm] at he
  repeat' split at he
  all_goals (try (injection he with he2; subst he2))
  all_goals simp_all [AttachmentError.isNotFound]

/-- C6: GetAttachment returns an error of the NotFound kind exactly for
attachment ids absent from the offset index: an absent id always yields
the NotFound error, and a present id never does. -/
theorem getAttachment_notfound_iff_absent (d : Data) (id : String) :
    (∃ e, GetAttachment d id = .error e ∧ e.isNotFound = true) ↔
      assocGet d.attachmentMetaMap id = none := by
  constructor
  · rintro ⟨e, he, hnf⟩
    cases hm : assocGet d.attachmentMetaMap id with
    | none => rfl
    | some meta =>
        have hf := getAttachment_present_never_notfound d id meta hm e he
        rw [hnf] at hf
        cases hf
  · intro hm
    refine ⟨.metaNotFound id, ?_, rfl⟩
    unfold GetAttachment
    rw [hm]

/-- C6, witness: on an empty offset index every lookup yields the
NotFound kind. -/
theorem getAttachment_notfound_iff_absent_witness :
    ∃ e, GetAttachment { tickets := [], rtGitHubMap := [], attachmentMetaMap := [] }
        "a1" = .error e ∧ e.isNotFound = true :=
  (getAttachment_notfound_iff_absent
    { tickets := [], rtGitHubMap := [], attachmentMetaMap := [] } "a1").mpr rfl

/-! ## C7 -/

/-- A name matching the numeric-id pattern in particular ends in
".json" and so matches the glob pattern. -/
theorem pattern_matches_glob (name : String) :
    matchesTicketFilePattern name = true → globMatchesJson name = true := by
  intro h
  unfold matchesTicketFilePattern at h
  unfold globMatchesJson
  split at h
  · rename_i heq
    rw [heq]
    rfl
  · cases h

/-- C7: the ingestion run parses exactly the files whose names match
the numeric-id pattern (every other enumerated file is skipped without
effect), and any returned ticket slice has exactly one ticket per
matching file. -/
theorem readTickets_parses_exactly_pattern_matching_files (files : List TicketFile) :
    (readTicketsParsed files =
      (files.filter (fun f => matchesTicketFilePattern f.name)).mapM
        (fun f => decodeIndexTicket f.content)) ∧
    (∀ ts out, readTicketsParsed files = .ok ts → readTicketsResult files out →
        out.length = ts.length) := by
  constructor
  · unfold readTicketsParsed globJson
    rw [List.filter_filter]
    congr 1
    apply List.filter_congr
    intro f _
    cases hmf : matchesTicketFilePattern f.name with
    | false => simp
    | true => simp [pattern_matches_glob f.name hmf]
  · rintro ts out hts ⟨parsed, hp, hperm, _⟩
    rw [hts] at hp
    injection hp with hp
    rw [hperm.length_eq, hp]

/-- C7, witness: the scenario of three well-formed numeric-id ticket
files and one non-matching file parses exactly the three tickets. -/
theorem readTickets_parses_exactly_pattern_matching_files_witness :
    readTicketsParsed scenarioFiles =
      .ok [{ id := "1", status := "", subject := "", transactions := [] },
           { id := "2", status := "", subject := "", transactions := [] },
           { id := "3", status := "", subject := "", transactions := [] }] ∧
    ([{ id := "1", status := "", subject := "", transactions := [] },
      { id := "2", status := "", subject := "", transactions := [] },
      { id := "3", status := "", subject := "", transactions := [] }] :
        List IndexTicket).length = 3 :=
  ⟨(readTickets_parses_exactly_pattern_matching_files scenarioFiles).1.trans rfl, rfl⟩

/-! ## C8 -/

/-- C8, counterexample: two well-formed ticket files whose ids "7" and
"007" tie on the numeric key 7.  Both orders of the pair are sorted
permutations of the parsed tickets, so both are possible outcomes of a
run (worker completion order decides between them), and they serialize
to different manifest bytes — the claim of byte-identical manifests
across runs fails on this input. -/
theorem readTickets_tied_numeric_ids_nondeterministic :
    readTicketsResult tiedFiles [tiedTicketA, tiedTicketB] ∧
    readTicketsResult tiedFiles [tiedTicketB, tiedTicketA] ∧
    marshalTickets [tiedTicketA, tiedTicketB] ≠
      marshalTickets [tiedTicketB, tiedTicketA] := by
  refine ⟨⟨[tiedTicketA, tiedTicketB], rfl, List.Perm.refl _, ?_⟩,
          ⟨[tiedTicketA, tiedTicketB], rfl, List.Perm.swap tiedTicketA tiedTicketB [], ?_⟩,
          ?_⟩
  · decide
  · decide
  · decide

/-- C8, amended: the returned ticket slice is always sorted ascending
by numeric id, and when the numeric ids of the parsed tickets are
pairwise distinct the outcome is unique: any two runs over the same
enumerated files return the same slice and hence byte-identical
manifests.  (With tied numeric keys the order among the tied tickets
depends on worker completion order, as the counterexample shows.) -/
theorem readTickets_deterministic_given_distinct_ids
    (files : List TicketFile) (parsed : List IndexTicket)
    (hp : readTicketsParsed files = .ok parsed)
    (hnd : parsed.Pairwise (fun a b => atoi a.id ≠ atoi b.id))
    (out1 out2 : List IndexTicket)
    (h1 : readTicketsResult files out1) (h2 : readTicketsResult files out2) :
    out1 = out2 ∧ marshalTickets out1 = marshalTickets out2 := by
  obtain ⟨p1, hp1, hperm1, hsort1⟩ := h1
  obtain ⟨p2, hp2, hperm2, hsort2⟩ := h2
  rw [hp] at hp1 hp2
  injection hp1 with e1
  injection hp2 with e2
  subst e1
  subst e2
  have hsym : ∀ (a b : IndexTicket), atoi a.id ≠ atoi b.id → atoi b.id ≠ atoi a.id :=
    fun _ _ h hh => h hh.symm
  have hd1 : out1.Pairwise (fun a b => atoi a.id ≠ atoi b.id) :=
    (hperm1.pairwise_iff (fun hab => hsym _ _ hab)).mpr hnd
  have hd2 : out2.Pairwise (fun a b => atoi a.id ≠ atoi b.id) :=
    (hperm2.pairwise_iff (fun hab => hsym _ _ hab)).mpr hnd
  have hle1 : out1.Pairwise (fun a b => atoi a.id ≤ atoi b.id) :=
    hsort1.imp (fun h => h)
  have hle2 : out2.Pairwise (fun a b => atoi a.id ≤ atoi b.id) :=
    hsort2.imp (fun h => h)
  haveI : IsAntisymm IndexTicket
      (fun a b => atoi a.id ≤ atoi b.id ∧ atoi a.id ≠ atoi b.id) :=
    ⟨fun _ _ hab hba => (hab.2 (le_antisymm hab.1 hba.1)).elim⟩
  have heq : out1 = out2 :=
    List.eq_of_perm_of_sorted (hperm1.trans hperm2.symm)
      (hle1.and hd1) (hle2.and hd2)
  exact ⟨heq, by rw [heq]⟩

/-- C8, witness for the amended determinism theorem on two files with
distinct numeric ids. -/
theorem readTickets_deterministic_given_distinct_ids_witness :
    ([distinctTicket1, distinctTicket2] = [distinctTicket1, distinctTicket2]) ∧
    marshalTickets [distinctTicket1, distinctTicket2] =
      marshalTickets [distinctTicket1, distinctTicket2] :=
  readTickets_deterministic_given_distinct_ids distinctFiles
    [distinctTicket1, distinctTicket2] rfl (by decide)
    [distinctTicket1, distinctTicket2] [distinctTicket1, distinctTicket2]
    ⟨[distinctTicket1, distinctTicket2], rfl, List.Perm.refl _, by decide⟩
    ⟨[distinctTicket1, distinctTicket2], rfl, List.Perm.refl _, by decide⟩

/-! ## C9 -/

/-- C9: for every attachment GetAttachment reaches (offset-index entry
present, ticket fetched, both recorded offsets in range and the three
attachment fields present as strings), the returned bytes follow the
content decoding policy: a content type with the "text/" head returns
the stored string verbatim as its UTF-8 bytes; any other content type
returns the base64 decoding of the stored string, and a base64 decode
failure returns the MalformedAttachment error and no content. -/
theorem getAttachment_content_decoding_policy
    (d : Data) (id : String) (meta : AttachmentMeta)
    (tfields trFields attFields : List (String × Json))
    (ts atts : List Json) (contentType filename originalContent : String)
    (hm : assocGet d.attachmentMetaMap id = some meta)
    (ht : GetTicket d meta.ticketID = .ok (.obj tfields))
    (h1 : assocGet tfields "Transactions" = some (.arr ts))
    (h2 : ts.get? meta.transactionOffset = some (.obj trFields))
    (h3 : assocGet trFields "Attachments" = some (.arr atts))
    (h4 : atts.get? meta.attachmentOffset = some (.obj attFields))
    (h5 : assocGet attFields "ContentType" = some (.str contentType))
    (h6 : assocGet attFields "Filename" = some (.str filename))
    (h7 : assocGet attFields "OriginalContent" = some (.str originalContent)) :
    (isTextContentType contentType = true →
        GetAttachment d id = .ok (filename, contentType, utf8Bytes originalContent)) ∧
    (isTextContentType contentType = false →
        (∀ bs, base64Decode originalContent = .ok bs →
            GetAttachment d id = .ok (filename, contentType, bs)) ∧
        (base64Decode originalContent = .error () →
            GetAttachment d id = .error .malformedAttachment)) := by
  have hge : GetAttachment d id =
      (if isTextContentType contentType then
        .ok (filename, contentType, utf8Bytes originalContent)
      else
        match base64Decode originalContent with
        | .ok content => .ok (filename, contentType, content)
        | .error _ => .error .malformedAttachment) := by
    unfold GetAttachment
    simp only [hm, ht, h1, h2, h3, h4, h5, h6, h7]
  refine ⟨fun htext => ?_, fun hbin => ⟨fun bs hbs => ?_, fun herr => ?_⟩⟩
  · rw [hge, if_pos htext]
  · rw [hge, if_neg (by simp [hbin]), hbs]
  · rw [hge, if_neg (by simp [hbin]), herr]

/-- C9, witness: a text attachment returns its stored string verbatim
and a binary attachment returns its base64 decoding, on a one-ticket
store holding one attachment of each kind. -/
theorem getAttachment_content_decoding_policy_witness :
    GetAttachment
      { tickets := [("1", Json.obj [("Transactions", Json.arr
          [Json.obj [("Attachments", Json.arr
            [Json.obj [("ContentType", Json.str "application/octet-stream"),
                       ("Filename", Json.str "f.bin"),
                       ("OriginalContent", Json.str "aGVsbG8=")]])]])])],
        rtGitHubMap := [],
        attachmentMetaMap := [("a1",
          { ticketID := "1", transactionOffset := 0, attachmentOffset := 0 })] }
      "a1" = .ok ("f.bin", "application/octet-stream", [104, 101, 108, 108, 111]) :=
  ((getAttachment_content_decoding_policy
      { tickets := [("1", Json.obj [("Transactions", Json.arr
          [Json.obj [("Attachments", Json.arr
            [Json.obj [("ContentType", Json.str "application/octet-stream"),
                       ("Filename", Json.str "f.bin"),
                       ("OriginalContent", Json.str "aGVsbG8=")]])]])])],
        rtGitHubMap := [],
        attachmentMetaMap := [("a1",
          { ticketID := "1", transactionOffset := 0, attachmentOffset := 0 })] }
      "a1"
      { ticketID := "1", transactionOffset := 0, attachmentOffset := 0 }
      [("Transactions", Json.arr
          [Json.obj [("Attachments", Json.arr
            [Json.obj [("ContentType", Json.str "application/octet-stream"),
                       ("Filename", Json.str "f.bin"),
                       ("OriginalContent", Json.str "aGVsbG8=")]])]]),
       ("GitHubIssue", Json.str "")]
      [("Attachments", Json.arr
        [Json.obj [("ContentType", Json.str "application/octet-stream"),
                   ("Filename", Json.str "f.bin"),
                   ("OriginalContent", Json.str "aGVsbG8=")]])]
      [("ContentType", Json.str "application/octet-stream"),
       ("Filename", Json.str "f.bin"),
       ("OriginalContent", Json.str "aGVsbG8=")]
      [Json.obj [("Attachments", Json.arr
        [Json.obj [("ContentType", Json.str "application/octet-stream"),
                   ("Filename", Json.str "f.bin"),
                   ("OriginalContent", Json.str "aGVsbG8=")]])]]
      [Json.obj [("ContentType", Json.str "application/octet-stream"),
                 ("Filename", Json.str "f.bin"),
                 ("OriginalContent", Json.str "aGVsbG8=")]]
      "application/octet-stream" "f.bin" "aGVsbG8="
      rfl rfl rfl rfl rfl rfl rfl rfl rfl).2 rfl).1
    [104, 101, 108, 108, 111] rfl

/-! ## C10 -/

/-- Every binding the attachment loop of one manifest entry adds on top
of a base map either was in the base map or records a real position of
that entry: an attachment at list position i from starting offset
attOff, keyed by its id. -/
theorem assocGet_insertAttachments (tid : String) (trOff : Nat)
    (atts : List IndexAttachment) :
    ∀ attOff m k meta,
      assocGet (insertAttachments tid trOff attOff atts m) k = some meta →
      assocGet m k = some meta ∨
      ∃ i a, atts.get? i = some a ∧ a.id = k ∧
        meta = { ticketID := tid, transactionOffset := trOff,
                 attachmentOffset := attOff + i } := by
  induction atts with
  | nil =>
      intro attOff m k meta h
      exact .inl h
  | cons a rest ih =>
      intro attOff m k meta h
      rcases ih (attOff + 1) _ k meta h with hbase | ⟨i, b, hi, hb, hmeta⟩
      · rw [assocGet_assocSet] at hbase
        by_cases hak : a.id = k
        · rw [if_pos hak] at hbase
          injection hbase with hbase
          refine .inr ⟨0, a, rfl, hak, ?_⟩
          rw [← hbase]
          simp
        · rw [if_neg hak] at hbase
          exact .inl hbase
      · refine .inr ⟨i + 1, b, by simpa using hi, hb, ?_⟩
        rw [hmeta]
        have harith : attOff + 1 + i = attOff + (i + 1) := by omega
        rw [harith]

/-- Every binding the transaction loop of one manifest entry adds on
top of a base map either was in the base map or records a real
(transaction, attachment) position of that entry. -/
theorem assocGet_insertTransactions (tid : String) (trs : List IndexTransaction) :
    ∀ trOff m k meta,
      assocGet (insertTransactions tid trOff trs m) k = some meta →
      assocGet m k = some meta ∨
      ∃ j tr, trs.get? j = some tr ∧
        ∃ i a, tr.attachments.get? i = some a ∧ a.id = k ∧
          meta = { ticketID := tid, transactionOffset := trOff + j,
                   attachmentOffset := i } := by
  induction trs with
  | nil =>
      intro trOff m k meta h
      exact .inl h
  | cons tr rest ih =>
      intro trOff m k meta h
      rcases ih (trOff + 1) _ k meta h with hbase | ⟨j, tr2, hj, i, a, hi, ha, hmeta⟩
      · rcases assocGet_insertAttachments tid trOff tr.attachments 0 m k meta hbase
          with h0 | ⟨i, a, hi, ha, hmeta⟩
        · exact .inl h0
        · refine .inr ⟨0, tr, rfl, i, a, hi, ha, ?_⟩
          rw [hmeta]
          have h1 : trOff + 0 = trOff := by omega
          have h2 : 0 + i = i := by omega
          rw [h1, h2]
      · refine .inr ⟨j + 1, tr2, by simpa using hj, i, a, hi, ha, ?_⟩
        rw [hmeta]
        have harith : trOff + 1 + j = trOff + (j + 1) := by omega
        rw [harith]

/-- Every binding processIndexTicket adds is consistent with the entry
just processed; all other bindings are left as they were. -/
theorem assocGet_processIndexTicket (st : LoadState) (t : IndexTicket)
    (k : String) (meta : AttachmentMeta)
    (h : assocGet (processIndexTicket st t).attachmentMetaMap k = some meta) :
    assocGet st.attachmentMetaMap k = some meta ∨
    (t.id = meta.ticketID ∧
      ∃ tr, t.transactions.get? meta.transactionOffset = some tr ∧
        ∃ a, tr.attachments.get? meta.attachmentOffset = some a ∧ a.id = k) := by
  rcases assocGet_insertTransactions t.id t.transactions 0 st.attachmentMetaMap
      k meta h with h0 | ⟨j, tr, hj, i, a, hi, ha, hmeta⟩
  · exact .inl h0
  · subst hmeta
    refine .inr ⟨rfl, tr, ?_, a, hi, ha⟩
    simpa using hj

/-- Every binding of the map built by folding processIndexTicket over
a manifest is consistent with that manifest (or already satisfied a
property of the start map). -/
theorem foldl_processIndexTicket_consistent (entries : List IndexTicket) :
    ∀ (st : LoadState) (k : String) (meta : AttachmentMeta),
      assocGet (entries.foldl processIndexTicket st).attachmentMetaMap k = some meta →
      assocGet st.attachmentMetaMap k = some meta ∨ consistentWith entries k meta := by
  induction entries with
  | nil =>
      intro st k meta h
      exact .inl h
  | cons t rest ih =>
      intro st k meta h
      rcases ih (processIndexTicket st t) k meta h with hin | hcons
      · rcases assocGet_processIndexTicket st t k meta hin with h0 | hloc
        · exact .inl h0
        · exact .inr ⟨t, List.mem_cons_self t rest, hloc.1, hloc.2⟩
      · obtain ⟨u, hu, hrest⟩ := hcons
        exact .inr ⟨u, List.mem_cons_of_mem t hu, hrest⟩

/-- C10: after LoadIndex succeeds on a manifest document (an array of
entries decoding to the ticket list, here with pairwise-distinct
attachment ids as the claim assumes), every binding of the offset index
is consistent with the manifest: its recorded (ticket id, transaction
position, attachment position) names an entry of the manifest whose id
is the recorded ticket id, whose transaction list has an element at the
recorded transaction position, whose attachment list there has an
element at the recorded attachment position, and whose attachment id at
exactly that position is the key of the binding. -/
theorem loadIndex_offset_index_consistent (v : Json) (es : List Json)
    (entries : List IndexTicket) (st : LoadState)
    (hv : v = .arr es)
    (hts : decodeEntries es = .ok entries)
    (hnd : (manifestAttachmentIds entries).Nodup)
    (hload : LoadIndex v = .ok st) :
    ∀ k meta, assocGet st.attachmentMetaMap k = some meta →
      consistentWith entries k meta := by
  subst hv
  have hrun : LoadIndex (.arr es) =
      .ok (entries.foldl processIndexTicket emptyLoadState) :=
    loadIndex_success_and_failure_conditions.1 es entries hts
  rw [hrun] at hload
  injection hload with hload
  subst hload
  intro k meta h
  rcases foldl_processIndexTicket_consistent entries emptyLoadState k meta h
      with hempty | hcons
  · cases hempty
  · exact hcons

/-- C10, witness on a one-entry manifest holding attachment "a1" at
transaction position 0, attachment position 0 of ticket "1". -/
theorem loadIndex_offset_index_consistent_witness :
    consistentWith
      [{ id := "1", status := "", subject := "",
         transactions := [{ id := "t1", attachments := [{ id := "a1" }] }] }]
      "a1"
      { ticketID := "1", transactionOffset := 0, attachmentOffset := 0 } :=
  loadIndex_offset_index_consistent
    (.arr [Json.obj [("Id", Json.str "1"),
      ("Transactions", Json.arr [Json.obj [("Id", Json.str "t1"),
        ("Attachments", Json.arr [Json.obj [("Id", Json.str "a1")]])]])]])
    [Json.obj [("Id", Json.str "1"),
      ("Transactions", Json.arr [Json.obj [("Id", Json.str "t1"),
        ("Attachments", Json.arr [Json.obj [("Id", Json.str "a1")]])]])]]
    [{ id := "1", status := "", subject := "",
       transactions := [{ id := "t1", attachments := [{ id := "a1" }] }] }]
    { ticketIndex :=
        [{ id := "1", status := "", subject := "",
           transactions := [{ id := "t1", attachments := [{ id := "a1" }] }] }],
      attachmentMetaMap := [("a1",
        { ticketID := "1", transactionOffset := 0, attachmentOffset := 0 })] }
    rfl rfl (by decide) rfl "a1"
    { ticketID := "1", transactionOffset := 0, attachmentOffset := 0 } rfl

end RTStatic
